import Mathlib

/-!
Verification development for the product-recommendation pipeline
(`app/main.py`, `app/database_repository.py`, `models/schemas.py`).

The Python code is shallowly embedded: every pipeline stage is a pure Lean
function translated from the source.  Python dynamic values appearing in
product attribute maps and in parsed LLM JSON responses are modelled by the
inductive type `JVal`; a Python value that may be `None` is `Option JVal`.
The outbound LLM call is abstracted by its observable outcome
(`Option (Option JVal)`): `none` = no model configured or every attempt
failed with a client error; `some none` = a response whose text is not valid
JSON (`json.loads` raises `JSONDecodeError`); `some (some v)` = a response
whose text parses to the JSON value `v`.
-/

namespace Reco

/-- JSON-like dynamic values (attribute values, parsed LLM responses). -/
inductive JVal where
  | jnull
  | jbool (b : Bool)
  | jint (n : Int)
  | jstr (s : String)
  | jarr (xs : List JVal)
  | jobj (fields : List (String × JVal))

mutual

/-- Python `==` on JSON-like values (`True == 1` holds in Python). -/
def JVal.beq : JVal → JVal → Bool
  | .jnull, .jnull => true
  | .jbool a, .jbool b => a == b
  | .jbool a, .jint n => (if a then (1 : Int) else 0) == n
  | .jint n, .jbool a => n == (if a then (1 : Int) else 0)
  | .jint a, .jint b => a == b
  | .jstr a, .jstr b => a == b
  | .jarr xs, .jarr ys => JVal.beqList xs ys
  | .jobj xs, .jobj ys => JVal.beqFields xs ys
  | _, _ => false

/-- Pointwise Python `==` on JSON arrays. -/
def JVal.beqList : List JVal → List JVal → Bool
  | [], [] => true
  | x :: xs, y :: ys => JVal.beq x y && JVal.beqList xs ys
  | _, _ => false

/-- Pointwise Python `==` on JSON objects. -/
def JVal.beqFields : List (String × JVal) → List (String × JVal) → Bool
  | [], [] => true
  | (k1, v1) :: xs, (k2, v2) :: ys => k1 == k2 && JVal.beq v1 v2 && JVal.beqFields xs ys
  | _, _ => false

end

/-- Python truthiness of a JSON-like value. -/
def pyTruthy : JVal → Bool
  | .jnull => false
  | .jbool b => b
  | .jint n => !(n == 0)
  | .jstr s => !(s == "")
  | .jarr xs => !xs.isEmpty
  | .jobj f => !f.isEmpty

/-- Python truthiness of a possibly-`None` value. -/
def pyTruthyOpt : Option JVal → Bool
  | none => false
  | some v => pyTruthy v

/-- Python `==` between two possibly-`None` values (`None == None` is `True`). -/
def pyEqVal : Option JVal → Option JVal → Bool
  | none, none => true
  | some a, some b => JVal.beq a b
  | _, _ => false

/-- Python `==` between a possibly-`None` JSON value and a possibly-`None`
string (such as `Product.brand`); `None == None` is `True`, any value of a
non-string type compares unequal to a string. -/
def pyEqStr : Option JVal → Option String → Bool
  | none, none => true
  | some (.jstr a), some b => a == b
  | _, _ => false

/-- Python `x or y` on possibly-`None` values: `x` if truthy, else `y`. -/
def pyOr (x y : Option JVal) : Option JVal :=
  if pyTruthyOpt x then x else y

/-- Python `str()` of a JSON-like value (container reprs abstracted; the
pipeline only applies `str` to scalar attribute values). -/
def JVal.pyStr : JVal → String
  | .jnull => "None"
  | .jbool b => if b then "True" else "False"
  | .jint n => toString n
  | .jstr s => s
  | .jarr _ => "<list>"
  | .jobj _ => "<dict>"

/-- Python `str()` of a possibly-`None` value. -/
def optPyStr : Option JVal → String
  | none => "None"
  | some v => v.pyStr

/-- ASCII lower-casing of one character (Python `str.lower` on the
identifiers used by the pipeline). -/
def lowerChar (c : Char) : Char :=
  if c == 'A' then 'a' else if c == 'B' then 'b' else if c == 'C' then 'c'
  else if c == 'D' then 'd' else if c == 'E' then 'e' else if c == 'F' then 'f'
  else if c == 'G' then 'g' else if c == 'H' then 'h' else if c == 'I' then 'i'
  else if c == 'J' then 'j' else if c == 'K' then 'k' else if c == 'L' then 'l'
  else if c == 'M' then 'm' else if c == 'N' then 'n' else if c == 'O' then 'o'
  else if c == 'P' then 'p' else if c == 'Q' then 'q' else if c == 'R' then 'r'
  else if c == 'S' then 's' else if c == 'T' then 't' else if c == 'U' then 'u'
  else if c == 'V' then 'v' else if c == 'W' then 'w' else if c == 'X' then 'x'
  else if c == 'Y' then 'y' else if c == 'Z' then 'z' else c

/-- Whitespace stripped by Python `str.strip()`. -/
def isPySpace (c : Char) : Bool :=
  c == ' ' || c == '\t' || c == '\n' || c == '\r'

/-- Python `s.strip()`. -/
def pyStrip (s : String) : String :=
  String.mk (((s.toList.dropWhile isPySpace).reverse.dropWhile isPySpace).reverse)

/-- Python `s.strip().lower()`. -/
def pyStripLower (s : String) : String :=
  String.mk ((((s.toList.dropWhile isPySpace).reverse.dropWhile isPySpace).reverse).map lowerChar)

/-- Python `dict.get(key)` on an attribute map (keys are unique in a Python
dict, so first-occurrence lookup is faithful). -/
def getAttr (attrs : List (String × JVal)) (key : String) : Option JVal :=
  (attrs.find? (fun kv => kv.1 == key)).map (fun kv => kv.2)

/-- `models/schemas.py` `Product`: the pydantic schema declares exactly these
fields (note: no `image_url`, `description` or `price` field). -/
structure Product where
  id : Int
  name : String
  category : String
  brand : Option String := none
  model : Option String := none
  attributes : List (String × JVal) := []
  tags : List String := []

/-- `models/schemas.py` `PublicProduct`. -/
structure PublicProduct where
  id : Int
  name : String
  category : String
  brand : Option String
  model : Option String

/-- A raw catalog record as stored in the JSON file / database row: it may
carry `image_url`, `description` and `price` keys that the `Product`
schema does not declare. -/
structure RawProduct where
  id : Int
  name : String
  category : String
  brand : Option String := none
  model : Option String := none
  attributes : List (String × JVal) := []
  tags : List String := []
  image_url : Option String := none
  description : Option String := none
  price : Option JVal := none

/-- Pydantic `Product.parse_obj(item)`: fields not declared on the schema
(`image_url`, `description`, `price`) are silently ignored. -/
def Product.parse_obj (r : RawProduct) : Product :=
  { id := r.id, name := r.name, category := r.category, brand := r.brand,
    model := r.model, attributes := r.attributes, tags := r.tags }

/-- Pydantic `model_dump()` of a `Product`: only the declared schema fields
appear in the dumped dict. -/
def Product.model_dump (p : Product) : List (String × JVal) :=
  [("id", JVal.jint p.id),
   ("name", JVal.jstr p.name),
   ("category", JVal.jstr p.category),
   ("brand", match p.brand with | some b => JVal.jstr b | none => JVal.jnull),
   ("model", match p.model with | some m => JVal.jstr m | none => JVal.jnull),
   ("attributes", JVal.jobj p.attributes),
   ("tags", JVal.jarr (p.tags.map JVal.jstr))]

/-- `main.py` `to_public_product`. -/
def to_public_product (p : Product) : PublicProduct :=
  { id := p.id, name := p.name, category := p.category, brand := p.brand, model := p.model }

/-- `main.py` `PLACEHOLDER_BRANDS` (the `None` member of the Python set can
never equal the `str` produced by `str(brand)`, so only the string members
matter). -/
def PLACEHOLDER_BRANDS : List String := ["generic", "unknown", "n/a", ""]

/-- `main.py` `is_meaningful_brand`. -/
def is_meaningful_brand : Option String → Bool
  | none => false
  | some b => !(PLACEHOLDER_BRANDS.contains (pyStripLower b))

/-- `main.py` `tag_overlap_count`: `len(set(a) & set(b))`. -/
def tag_overlap_count (a b : List String) : Nat :=
  if a.isEmpty || b.isEmpty then 0
  else (a.dedup.filter (fun t => b.contains t)).length

/-- `main.py` `COMPATIBILITY_MAP`. -/
def COMPATIBILITY_MAP : String → Option (List String)
  | "phone" => some ["phone", "phone_case", "screen_guard", "charger", "pouch", "earbuds", "power_bank"]
  | "watch_strap" => some ["watch_strap", "watch_tool", "spring_bar", "watch_box"]
  | "charger" => some ["cable", "adapter", "power_bank"]
  | "printer" => some ["ink_cartridge", "toner", "print_head", "maintenance_kit", "paper"]
  | "tv" => some ["soundbar", "home_theatre", "remote", "wall_mount"]
  | "pan" => some ["scrubber", "spatula", "lid", "pan_care_kit"]
  | "nebulizer" => some ["mask", "filters", "tubing", "mouthpiece"]
  | "medical_equipment" => some ["medical_equipment", "medical_supplies", "medical_accessory", "filters", "mask", "tubing", "mouthpiece"]
  | "speaker" => some ["speaker", "speaker_stand", "aux_cable", "bluetooth_transmitter", "case"]
  | _ => none

/-- Candidate categories of the phone block of `attribute_match_score`. -/
def PHONE_ACC : List String := ["phone_case", "screen_guard", "pouch", "charger"]

/-- Candidate categories of the printer block of `attribute_match_score`. -/
def PRINTER_CONS : List String := ["ink_cartridge", "toner", "print_head"]

/-- Candidate categories of the nebulizer block of `attribute_match_score`. -/
def NEB_ACC : List String := ["mask", "filters", "tubing"]

/-- Candidate categories of the medical block of `attribute_match_score`
(this tuple does not include `medical_equipment` itself). -/
def MED_ACC : List String := ["medical_supplies", "medical_accessory", "filters", "mask", "tubing", "mouthpiece"]

/-- `main.py` `attribute_match_score`. -/
def attributeMatchScore (primary candidate : Product) : Int :=
  let a := candidate.attributes
  let s1 : Int :=
    if primary.category == "phone" && PHONE_ACC.contains candidate.category then
      (if pyTruthyOpt (getAttr a "compatible_model") && pyTruthyOpt (getAttr a "compatible_brand")
          && pyEqStr (getAttr a "compatible_model") primary.model
          && pyEqStr (getAttr a "compatible_brand") primary.brand then 50 else 0)
      + (if candidate.category == "charger"
            && pyEqVal (getAttr a "port_type") (getAttr primary.attributes "port_type") then 25 else 0)
    else 0
  let s2 : Int :=
    if primary.category == "watch_strap"
       && pyTruthyOpt (getAttr a "size_mm") && pyTruthyOpt (getAttr primary.attributes "size_mm")
       && pyEqVal (getAttr a "size_mm") (getAttr primary.attributes "size_mm") then 40 else 0
  let s3 : Int :=
    if primary.category == "printer" && PRINTER_CONS.contains candidate.category then
      (if pyTruthyOpt (getAttr a "compatible_series") && pyTruthyOpt (getAttr primary.attributes "series")
          && pyEqVal (getAttr a "compatible_series") (getAttr primary.attributes "series") then 50 else 0)
      + (if pyTruthyOpt (getAttr a "compatible_brand")
            && pyEqStr (getAttr a "compatible_brand") primary.brand then 20 else 0)
    else 0
  let s4 : Int :=
    if primary.category == "nebulizer" && NEB_ACC.contains candidate.category
       && (pyEqStr (getAttr a "compatible_model") primary.model
           || pyEqStr (getAttr a "compatible_brand") primary.brand) then 40 else 0
  let s5 : Int :=
    if primary.category == "speaker"
       && (pyTruthyOpt (getAttr a "compatible_with_speaker") || candidate.tags.contains "speaker")
    then 20 else 0
  let s6 : Int :=
    if primary.category == "medical_equipment" && MED_ACC.contains candidate.category then
      (if pyTruthyOpt (getAttr a "compatible_model") && pyTruthyOpt (getAttr a "compatible_brand")
          && (pyEqStr (getAttr a "compatible_model") primary.model
              || pyEqStr (getAttr a "compatible_brand") primary.brand) then 80 else 0)
      + (if pyEqStr (getAttr a "compatible_with_medical_model") primary.model then 60 else 0)
      + (if 0 < tag_overlap_count primary.tags candidate.tags then 10 else 0)
    else 0
  s1 + s2 + s3 + s4 + s5 + s6

/-- Consumer-electronics categories deprioritized for a medical primary
in `RetrieverAgent.retrieve`. -/
def MED_ELECTRONICS : List String := ["phone", "charger", "speaker", "phone_case", "screen_guard"]

/-- The loop body of `RetrieverAgent.retrieve`: accumulates the
`prioritized` and `rest` lists exactly as the Python `for` loop does.
Note that the "push to back" branch for a medical primary appends to the
same `rest` list as the default branch. -/
def retrieveLoop (primary : Product) :
    List Product → List Product → List Product → List Product × List Product
  | [], prioritized, rest => (prioritized, rest)
  | p :: ps, prioritized, rest =>
    if p.id == primary.id then
      retrieveLoop primary ps prioritized rest
    else if p.category == primary.category then
      retrieveLoop primary ps (prioritized ++ [p]) rest
    else if is_meaningful_brand primary.brand && is_meaningful_brand p.brand
            && p.brand == primary.brand then
      retrieveLoop primary ps (prioritized ++ [p]) rest
    else if primary.category == "medical_equipment" && MED_ELECTRONICS.contains p.category then
      retrieveLoop primary ps prioritized (rest ++ [p])
    else
      retrieveLoop primary ps prioritized (rest ++ [p])

/-- `main.py` `RetrieverAgent.retrieve` (the catalog returned by
`get_all_products` is passed explicitly). -/
def RetrieverAgent.retrieve (catalog : List Product) (primary : Product)
    (max_results : Nat) : List Product :=
  let pr := retrieveLoop primary catalog [] []
  (pr.1 ++ pr.2).take max_results

/-- The explicit-compatibility-attribute test of `CandidateBuilderAgent.build`
(the same expression appears verbatim in both branches of the Python code). -/
def hasExplicitAttr (primary p : Product) : Bool :=
  pyTruthyOpt (getAttr p.attributes "compatible_model")
  || pyTruthyOpt (getAttr p.attributes "compatible_brand")
  || pyTruthyOpt (getAttr p.attributes "compatible_with")
  || pyTruthyOpt (getAttr p.attributes ("compatible_with_" ++ primary.category))
  || pyTruthyOpt (getAttr p.attributes "compatible_with_speaker")
  || pyTruthyOpt (getAttr p.attributes "compatible_with_medical_model")

/-- Whether one candidate survives the `CandidateBuilderAgent.build` loop
(the loop appends `p` exactly when no `continue` fires). -/
def buildKeep (primary p : Product) : Bool :=
  !(p.id == primary.id)
  && (match COMPATIBILITY_MAP primary.category with
      | some allowed =>
        allowed.contains p.category
        && (p.category == primary.category
            || hasExplicitAttr primary p
            || 2 ≤ tag_overlap_count primary.tags p.tags)
      | none =>
        !(tag_overlap_count primary.tags p.tags < 2) || hasExplicitAttr primary p)
  && !(primary.category == "watch_strap" && p.category == "screen_guard")

/-- `main.py` `CandidateBuilderAgent.build`. -/
def CandidateBuilderAgent.build (primary : Product) (raw_candidates : List Product) : List Product :=
  raw_candidates.filter (buildKeep primary)

/-- The deterministic score `ScorerAgent.score` attaches as `_reco_score`:
attribute score, +30 for a shared meaningful brand, +10 per overlapping tag,
+20 for a compatibility-map category, +2 when `model_dump()` carries a
truthy `image_url` key. -/
def scoreOf (primary c : Product) : Int :=
  attributeMatchScore primary c
  + (if is_meaningful_brand primary.brand && is_meaningful_brand c.brand
        && primary.brand == c.brand then 30 else 0)
  + 10 * (tag_overlap_count primary.tags c.tags : Int)
  + (if ((COMPATIBILITY_MAP primary.category).getD []).contains c.category then 20 else 0)
  + (if pyTruthyOpt (getAttr (Product.model_dump c) "image_url") then 2 else 0)

/-- Stable descending insertion: `x` is placed before the first element whose
key is `≤` its own, so earlier elements win ties. -/
def insertByDesc (key : Product → Int) (x : Product) : List Product → List Product
  | [] => [x]
  | y :: ys => if key y ≤ key x then x :: y :: ys else y :: insertByDesc key x ys

/-- Stable sort by descending key (the unique stable descending ordering,
matching Python `list.sort(key=..., reverse=True)`). -/
def sortByDesc (key : Product → Int) : List Product → List Product
  | [] => []
  | x :: xs => insertByDesc key x (sortByDesc key xs)

/-- `main.py` `ScorerAgent.score`: score every candidate and stably sort by
descending score. -/
def ScorerAgent.score (primary : Product) (candidates : List Product) : List Product :=
  sortByDesc (scoreOf primary) candidates

/-- Observable outcome of `LLMReRankerAgent.rerank`: either the tuple the
Python method returns (`.ok none` models `(None, {})`), or an uncaught
Python exception (`.err`). -/
inductive RerankOutcome where
  | err (msg : String)
  | ok (res : Option (List Int × List (String × JVal)))

/-- Python `int(rid)` on a JSON value: succeeds on ints and bools, parses
integer strings, raises (`none`) on everything else. -/
def pyInt : JVal → Option Int
  | .jint n => some n
  | .jbool b => some (if b then 1 else 0)
  | .jstr s => (pyStrip s).toInt?
  | _ => none

/-- Python slicing `xs[:limit]` for an `int` limit (negative limits drop
elements from the end). -/
def pyTake (limit : Int) (xs : List α) : List α :=
  if 0 ≤ limit then xs.take limit.toNat
  else xs.take (xs.length - (-limit).toNat)

/-- One iteration of the id-sanitization loop in `LLMReRankerAgent.rerank`. -/
def sanStep (candidate_ids : List Int) (acc : List Int) (rid : JVal) : List Int :=
  match pyInt rid with
  | none => acc
  | some n => if candidate_ids.contains n && !(acc.contains n) then acc ++ [n] else acc

/-- The id-sanitization loop of `LLMReRankerAgent.rerank`: coerce each value
with `int(...)`, keep members of the candidate id set, drop duplicates. -/
def sanitizeIds (candidate_ids : List Int) (vals : List JVal) : List Int :=
  vals.foldl (sanStep candidate_ids) []

/-- The `reasons` extraction of `LLMReRankerAgent.rerank`:
`parsed.get("reasons", {})` if it is a dict, else `{}`. -/
def rerankReasons (fields : List (String × JVal)) : List (String × JVal) :=
  match getAttr fields "reasons" with
  | some (.jobj r) => r
  | _ => []

/-- `main.py` `LLMReRankerAgent.rerank`.  The network interaction is
abstracted by `llm` (see the module docstring); everything from
`json.loads` on is transcribed.  `parsed.get(...)` on a JSON value that is
not an object raises `AttributeError`, which no handler catches. -/
def LLMReRankerAgent.rerank (_primary : Product) (candidates : List Product) (limit : Int)
    (llm : Option (Option JVal)) : RerankOutcome :=
  match llm with
  | none => RerankOutcome.ok none
  | some none => RerankOutcome.ok none
  | some (some parsed) =>
    match parsed with
    | JVal.jobj fields =>
      match (getAttr fields "recommendation_ids").getD (JVal.jarr []) with
      | JVal.jarr vals =>
        let clean_ids := sanitizeIds (candidates.map (fun c => c.id)) vals
        if clean_ids.isEmpty then RerankOutcome.ok none
        else RerankOutcome.ok (some (pyTake limit clean_ids, rerankReasons fields))
      | _ => RerankOutcome.ok none
    | _ => RerankOutcome.err "AttributeError"

/-- The categories a medical primary accepts in `ValidatorAgent.validate`
(the tuple literal at the medical check of the validator). -/
def MEDICAL_VALIDATOR_CATEGORIES : List String :=
  ["medical_supplies", "medical_accessory", "filters", "mask", "tubing", "mouthpiece", "medical_equipment"]

/-- `id_to_c = {c.id: c for c in candidates}` followed by `id_to_c.get(rid)`:
a Python dict comprehension keeps the last entry per key. -/
def dictLookup (l : List Product) (rid : Int) : Option Product :=
  l.reverse.find? (fun c => c.id == rid)

/-- Validator rule 1 of `ValidatorAgent.validate`: when an allowed-category
policy exists, the candidate category must be in it. -/
def allowedCheck (primary c : Product) : Bool :=
  match COMPATIBILITY_MAP primary.category with
  | some allowed => allowed.contains c.category
  | none => true

/-- Validator rule: no phones for speaker primaries without explicit
cross-compatibility attributes. -/
def speakerPhoneCheck (primary c : Product) : Bool :=
  if primary.category == "speaker" && c.category == "phone" then
    pyTruthyOpt (getAttr c.attributes "compatible_with_speaker")
    || pyTruthyOpt (getAttr c.attributes "compatible_with")
    || pyTruthyOpt (getAttr c.attributes "cross_compatible_with_speaker")
  else true

/-- Validator rule: chargers / power banks for speaker primaries need an
explicit compatibility attribute or a matching declared voltage. -/
def speakerChargerCheck (primary c : Product) : Bool :=
  if primary.category == "speaker" && (c.category == "charger" || c.category == "power_bank") then
    let explicit_ok :=
      pyTruthyOpt (getAttr c.attributes "compatible_with_speaker")
      || pyTruthyOpt (getAttr c.attributes "compatible_with")
      || pyTruthyOpt (getAttr c.attributes "cross_compatible_with_speaker")
    let speaker_req := pyOr (getAttr primary.attributes "required_voltage")
                            (getAttr primary.attributes "required_input")
    let charger_out := pyOr (getAttr c.attributes "output_voltage")
                            (getAttr c.attributes "output")
    let power_match := pyTruthyOpt speaker_req && pyTruthyOpt charger_out
      && (optPyStr speaker_req == optPyStr charger_out)
    explicit_ok || power_match
  else true

/-- Validator rule: a medical primary accepts only candidates in the medical
categories, or candidates explicitly declaring compatibility with the
primary's model or brand. -/
def medicalCheck (primary c : Product) : Bool :=
  if primary.category == "medical_equipment" then
    if MEDICAL_VALIDATOR_CATEGORIES.contains c.category then true
    else
      pyTruthyOpt (getAttr c.attributes "compatible_with_medical_model")
      || pyEqStr (getAttr c.attributes "compatible_brand") primary.brand
      || pyEqStr (getAttr c.attributes "compatible_model") primary.model
  else true

/-- Validator rule: printer consumables declaring another brand need an
explicit `cross_compatible` flag. -/
def printerCheck (primary c : Product) : Bool :=
  if primary.category == "printer" && (c.category == "ink_cartridge" || c.category == "toner") then
    let comp_brand := getAttr c.attributes "compatible_brand"
    if pyTruthyOpt comp_brand && !(pyEqStr comp_brand primary.brand) then
      pyTruthyOpt (getAttr c.attributes "cross_compatible")
    else true
  else true

/-- Whether one id survives the `ValidatorAgent.validate` loop once resolved
to its candidate (the loop appends `rid` exactly when no `continue` fires;
the checks are independent, so their conjunction is the loop's condition). -/
def validKeep (primary c : Product) : Bool :=
  allowedCheck primary c && speakerPhoneCheck primary c && speakerChargerCheck primary c
    && medicalCheck primary c && printerCheck primary c

/-- `main.py` `ValidatorAgent.validate`. -/
def ValidatorAgent.validate (primary : Product) (rec_ids : List Int)
    (candidates : List Product) : List Int :=
  rec_ids.filter (fun rid =>
    match dictLookup candidates rid with
    | none => false
    | some c => validKeep primary c)

/-- The `_reco_score`-carrying output entry of `OrchestratorAgent.recommend`:
`{"product": to_public_product(p), "reason": ...}`. -/
structure RecEntry where
  product : PublicProduct
  reason : Option JVal

/-- `reasons.get(str(rid)) or reasons.get(rid) or None`.  The reasons dict
comes from `json.loads`, whose object keys are always strings, so the
integer-key lookup never finds anything; a falsy reason collapses to `None`. -/
def reasonFor (reasons : List (String × JVal)) (rid : Int) : Option JVal :=
  let r1 := getAttr reasons (toString rid)
  if pyTruthyOpt r1 then r1 else none

/-- Stage 1-2 of `OrchestratorAgent.recommend`: retrieve (with
`max_results=1000`) then build. -/
def builtOf (catalog : List Product) (primary : Product) : List Product :=
  CandidateBuilderAgent.build primary (RetrieverAgent.retrieve catalog primary 1000)

/-- Stage 3 of `OrchestratorAgent.recommend`: the deterministically scored
candidate list. -/
def scoredOf (catalog : List Product) (primary : Product) : List Product :=
  ScorerAgent.score primary (builtOf catalog primary)

/-- `top_m = scored[:top_m_limit]` with `top_m_limit = 30`: the shortlist. -/
def shortlistOf (catalog : List Product) (primary : Product) : List Product :=
  (scoredOf catalog primary).take 30

/-- Stage 4 of `OrchestratorAgent.recommend`: the raw re-rank outcome. -/
def rerankRawOf (catalog : List Product) (primary : Product) (limit : Int)
    (llm : Option (Option JVal)) : RerankOutcome :=
  LLMReRankerAgent.rerank primary (shortlistOf catalog primary) limit llm

/-- `rec_ids, reasons = self.reranker.rerank(...)` unpacked (`None` becomes
the empty id list, which the subsequent `if not rec_ids` treats alike). -/
def rerankPairOf (catalog : List Product) (primary : Product) (limit : Int)
    (llm : Option (Option JVal)) : List Int × List (String × JVal) :=
  match rerankRawOf catalog primary limit llm with
  | RerankOutcome.ok (some p) => p
  | _ => ([], [])

/-- `rec_ids` after the deterministic fallback: when the re-rank produced
nothing, the first `limit` ids of the shortlist. -/
def recIdsOf (catalog : List Product) (primary : Product) (limit : Int)
    (llm : Option (Option JVal)) : List Int :=
  if (rerankPairOf catalog primary limit llm).1.isEmpty then
    (pyTake limit (shortlistOf catalog primary)).map (fun c => c.id)
  else (rerankPairOf catalog primary limit llm).1

/-- `reasons` after the deterministic fallback (reset to `{}` with it). -/
def reasonsOf (catalog : List Product) (primary : Product) (limit : Int)
    (llm : Option (Option JVal)) : List (String × JVal) :=
  if (rerankPairOf catalog primary limit llm).1.isEmpty then []
  else (rerankPairOf catalog primary limit llm).2

/-- Stage 5 of `OrchestratorAgent.recommend`: the validator's verdict on the
chosen ids against the shortlist. -/
def validatedOf (catalog : List Product) (primary : Product) (limit : Int)
    (llm : Option (Option JVal)) : List Int :=
  ValidatorAgent.validate primary (recIdsOf catalog primary limit llm)
    (shortlistOf catalog primary)

/-- `valid_ids` after the post-validation fallback: if the validator
filtered everything, same-category shortlist ids up to `limit`, else the
raw top-`limit` shortlist ids — both bypassing the validator. -/
def validIdsOf (catalog : List Product) (primary : Product) (limit : Int)
    (llm : Option (Option JVal)) : List Int :=
  if (validatedOf catalog primary limit llm).isEmpty then
    if (pyTake limit (((shortlistOf catalog primary).filter
          (fun c => c.category == primary.category)).map (fun c => c.id))).isEmpty then
      (pyTake limit (shortlistOf catalog primary)).map (fun c => c.id)
    else
      pyTake limit (((shortlistOf catalog primary).filter
        (fun c => c.category == primary.category)).map (fun c => c.id))
  else validatedOf catalog primary limit llm

/-- Stage 6 of `OrchestratorAgent.recommend`: map surviving ids back to
public entries (`id_to_p` over the shortlist, then a linear search of the
full scored list), truncated to `limit`. -/
def entriesOf (catalog : List Product) (primary : Product) (limit : Int)
    (llm : Option (Option JVal)) : List RecEntry :=
  (pyTake limit (validIdsOf catalog primary limit llm)).filterMap (fun rid =>
    match dictLookup (shortlistOf catalog primary) rid with
    | some p => some { product := to_public_product p,
                       reason := reasonFor (reasonsOf catalog primary limit llm) rid }
    | none =>
      match (scoredOf catalog primary).find? (fun s => s.id == rid) with
      | some p => some { product := to_public_product p,
                         reason := reasonFor (reasonsOf catalog primary limit llm) rid }
      | none => none)

/-- `main.py` `OrchestratorAgent.recommend`.  An uncaught exception raised
inside the pipeline surfaces as `.error` (the FastAPI endpoint has no
handler around this call, so it propagates to the HTTP caller). -/
def OrchestratorAgent.recommend (catalog : List Product) (primary : Product) (limit : Int)
    (llm : Option (Option JVal)) : Except String (List RecEntry) :=
  if (builtOf catalog primary).isEmpty then Except.ok []
  else
    match rerankRawOf catalog primary limit llm with
    | RerankOutcome.err e => Except.error e
    | RerankOutcome.ok _ => Except.ok (entriesOf catalog primary limit llm)

/-- `database_repository.py` `_load_data`: when `USE_POSTGRES` is truthy,
Postgres rows, else the JSON file; when `USE_POSTGRES` is falsy the
function body has no branch at all and Python implicitly returns `None`. -/
def pyLoadData (usePostgres : Bool) (pgRows jsonData : List RawProduct) :
    Option (List RawProduct) :=
  if usePostgres then
    if pgRows.isEmpty then some jsonData else some pgRows
  else none

/-- `database_repository.py` `_to_products`: `if not data: return []` (both
`None` and `[]` are falsy), else parse each record with
`Product.parse_obj` (all records of a well-typed `RawProduct` parse). -/
def toProducts : Option (List RawProduct) → List Product
  | none => []
  | some data => if data.isEmpty then [] else data.map Product.parse_obj

/-- `database_repository.py` `get_all_products`. -/
def get_all_products (usePostgres : Bool) (pgRows jsonData : List RawProduct) : List Product :=
  toProducts (pyLoadData usePostgres pgRows jsonData)

/-- Helper for `firstDedup`: drop values whose key was already seen,
remembering newly kept values. -/
def firstDedupAux (seen : List Int) : List Int → List Int
  | [] => []
  | x :: xs =>
    if seen.contains x then firstDedupAux seen xs
    else x :: firstDedupAux (seen ++ [x]) xs

/-- Specification-side description of the re-ranker's duplicate handling
("duplicates are dropped while preserving first occurrence order"): keep
the first occurrence of each value, in order.  Used to compare the
source-transcribed `sanitizeIds` against the spec's words. -/
def firstDedup (l : List Int) : List Int := firstDedupAux [] l

/-! ### Concrete fixtures used by witnesses and counterexamples -/

/-- A phone primary with no brand, tags or attributes. -/
def phonePrimary : Product := { id := 1, name := "Phone1", category := "phone" }

/-- A phone candidate. -/
def phoneP2 : Product := { id := 2, name := "P2", category := "phone" }

/-- A phone candidate. -/
def phoneP3 : Product := { id := 3, name := "P3", category := "phone" }

/-- A phone candidate. -/
def phoneP4 : Product := { id := 4, name := "P4", category := "phone" }

/-- A three-phone catalog. -/
def phoneCatalog : List Product := [phoneP2, phoneP3, phoneP4]

/-- A printer primary of brand BrandX. -/
def printerPrimary : Product :=
  { id := 1, name := "PrinterX", category := "printer", brand := some "BrandX" }

/-- An ink cartridge declaring compatibility with another brand and no
`cross_compatible` flag. -/
def otherBrandCartridge : Product :=
  { id := 2, name := "Ink", category := "ink_cartridge",
    attributes := [("compatible_brand", JVal.jstr "BrandY")] }

/-- A catalog holding only the other-brand cartridge. -/
def printerCatalog : List Product := [otherBrandCartridge]

/-- The single entry the orchestrator emits in the printer scenario. -/
def cartridgeEntry : RecEntry :=
  { product := { id := 2, name := "Ink", category := "ink_cartridge",
                 brand := none, model := none },
    reason := none }

/-- The entry produced for `phoneP2`. -/
def phoneEntry2 : RecEntry := { product := to_public_product phoneP2, reason := none }

/-- The entry produced for `phoneP3`. -/
def phoneEntry3 : RecEntry := { product := to_public_product phoneP3, reason := none }

/-- The entry produced for `phoneP4`. -/
def phoneEntry4 : RecEntry := { product := to_public_product phoneP4, reason := none }

/-- A medical-equipment primary with a brand and a model. -/
def medPrimary : Product :=
  { id := 1, name := "Dev", category := "medical_equipment",
    brand := some "Acme", model := some "M1" }

/-- A phone candidate with no compatibility attributes, used against the
medical primary. -/
def medPhoneCand : Product := { id := 7, name := "Phone7", category := "phone" }

/-- A medical-equipment primary with neither brand nor model. -/
def medPrimaryBare : Product :=
  { id := 1, name := "DevBare", category := "medical_equipment" }

/-- A candidate from a category unrelated to both medicine and consumer
electronics. -/
def bookP3 : Product := { id := 3, name := "Book", category := "book" }

/-- Raw catalog record carrying an `image_url`, as the storage layer
returns it. -/
def rawCase6 : RawProduct :=
  { id := 2, name := "Case", category := "phone_case",
    image_url := some "http://img.example/c.png" }

/-- The LLM-response object fields used by the C7 witness. -/
def fields7 : List (String × JVal) :=
  [("recommendation_ids", JVal.jarr [JVal.jint 3, JVal.jint 3, JVal.jint 99, JVal.jint 2])]

/-! ### General lemmas about the embedded pipeline -/

theorem mem_pyTake {α : Type} (n : Int) (xs : List α) (a : α) (h : a ∈ pyTake n xs) : a ∈ xs := by
  unfold pyTake at h
  split at h <;> exact List.take_subset _ _ h

theorem length_pyTake_le {α : Type} (n : Int) (xs : List α) (h0 : 0 ≤ n) :
    (pyTake n xs).length ≤ n.toNat := by
  unfold pyTake
  rw [if_pos h0]
  exact List.length_take_le _ _

theorem dictLookup_eq_some (l : List Product) (rid : Int) (p : Product)
    (h : dictLookup l rid = some p) : p ∈ l ∧ p.id = rid := by
  unfold dictLookup at h
  have hb := List.find?_some h
  exact ⟨List.mem_reverse.mp (List.mem_of_find?_eq_some h), eq_of_beq hb⟩

theorem mem_validate (primary : Product) (ids : List Int) (cands : List Product) (rid : Int)
    (h : rid ∈ ValidatorAgent.validate primary ids cands) :
    rid ∈ ids ∧ ∃ c, dictLookup cands rid = some c ∧ validKeep primary c = true := by
  unfold ValidatorAgent.validate at h
  have h2 := List.mem_filter.mp h
  refine ⟨h2.1, ?_⟩
  have hp := h2.2
  cases hdl : dictLookup cands rid with
  | none => rw [hdl] at hp; exact absurd hp (by simp)
  | some c => rw [hdl] at hp; exact ⟨c, rfl, hp⟩

theorem validate_nil (primary : Product) (ids : List Int) :
    ValidatorAgent.validate primary ids [] = [] := by
  simp [ValidatorAgent.validate, dictLookup]

theorem mem_entriesOf (catalog : List Product) (primary : Product) (limit : Int)
    (llm : Option (Option JVal)) (e : RecEntry)
    (he : e ∈ entriesOf catalog primary limit llm) :
    ∃ rid ∈ pyTake limit (validIdsOf catalog primary limit llm), e.product.id = rid := by
  unfold entriesOf at he
  rcases List.mem_filterMap.mp he with ⟨rid, hmem, hf⟩
  refine ⟨rid, hmem, ?_⟩
  cases hdl : dictLookup (shortlistOf catalog primary) rid with
  | some p =>
    rw [hdl] at hf
    cases hf
    exact (dictLookup_eq_some _ _ _ hdl).2
  | none =>
    rw [hdl] at hf
    cases hfd : (scoredOf catalog primary).find? (fun s => s.id == rid) with
    | some p =>
      rw [hfd] at hf
      cases hf
      have hb := List.find?_some hfd
      exact eq_of_beq hb
    | none => rw [hfd] at hf; cases hf

theorem validIds_subset_shortlist (catalog : List Product) (primary : Product) (limit : Int)
    (llm : Option (Option JVal)) (rid : Int)
    (h : rid ∈ validIdsOf catalog primary limit llm) :
    rid ∈ (shortlistOf catalog primary).map (fun p => p.id) := by
  unfold validIdsOf at h
  split at h
  · split at h
    · rcases List.mem_map.mp h with ⟨c, hc, hcid⟩
      exact List.mem_map.mpr ⟨c, mem_pyTake _ _ _ hc, hcid⟩
    · have h2 := mem_pyTake _ _ _ h
      rcases List.mem_map.mp h2 with ⟨c, hc, hcid⟩
      exact List.mem_map.mpr ⟨c, List.mem_of_mem_filter hc, hcid⟩
  · obtain ⟨-, c, hdl, -⟩ := mem_validate _ _ _ _ h
    obtain ⟨hcm, hcid⟩ := dictLookup_eq_some _ _ _ hdl
    exact List.mem_map.mpr ⟨c, hcm, hcid⟩

theorem recommend_ok_elim (catalog : List Product) (primary : Product) (limit : Int)
    (llm : Option (Option JVal)) (out : List RecEntry)
    (hok : OrchestratorAgent.recommend catalog primary limit llm = Except.ok out) :
    ((builtOf catalog primary).isEmpty ∧ out = [])
    ∨ out = entriesOf catalog primary limit llm := by
  unfold OrchestratorAgent.recommend at hok
  by_cases hb : (builtOf catalog primary).isEmpty
  · rw [if_pos hb] at hok
    injection hok with h
    exact Or.inl ⟨hb, h.symm⟩
  · rw [if_neg hb] at hok
    cases hrr : rerankRawOf catalog primary limit llm with
    | err m => rw [hrr] at hok; cases hok
    | ok r =>
      rw [hrr] at hok
      injection hok with h
      exact Or.inr h.symm

theorem shortlist_nil_of_built_nil (catalog : List Product) (primary : Product)
    (hb : (builtOf catalog primary).isEmpty) : shortlistOf catalog primary = [] := by
  unfold shortlistOf scoredOf ScorerAgent.score
  rw [List.isEmpty_iff] at hb
  rw [hb]
  rfl

theorem validated_nil_of_built_nil (catalog : List Product) (primary : Product) (limit : Int)
    (llm : Option (Option JVal)) (hb : (builtOf catalog primary).isEmpty) :
    validatedOf catalog primary limit llm = [] := by
  unfold validatedOf
  rw [shortlist_nil_of_built_nil catalog primary hb]
  exact validate_nil _ _

theorem sanStep_foldl (ids : List Int) (vals : List JVal) (acc : List Int) :
    vals.foldl (sanStep ids) acc
      = acc ++ firstDedupAux acc ((vals.filterMap pyInt).filter (fun n => ids.contains n)) := by
  induction vals generalizing acc with
  | nil => simp [firstDedupAux]
  | cons v vs ih =>
    simp only [List.foldl_cons]
    cases hv : pyInt v with
    | none =>
      have hstep : sanStep ids acc v = acc := by simp [sanStep, hv]
      rw [hstep, ih acc]
      simp [List.filterMap_cons, hv]
    | some n =>
      by_cases hid : n ∈ ids
      · by_cases hacc : n ∈ acc
        · have hstep : sanStep ids acc v = acc := by
            simp [sanStep, hv, List.contains, hid, hacc]
          rw [hstep, ih acc]
          simp [List.filterMap_cons, hv, List.filter_cons, firstDedupAux, List.contains, hid, hacc]
        · have hstep : sanStep ids acc v = acc ++ [n] := by
            simp [sanStep, hv, List.contains, hid, hacc]
          rw [hstep, ih (acc ++ [n])]
          simp [List.filterMap_cons, hv, List.filter_cons, firstDedupAux, List.contains, hid, hacc]
      · have hstep : sanStep ids acc v = acc := by
          simp [sanStep, hv, List.contains, hid]
        rw [hstep, ih acc]
        simp [List.filterMap_cons, hv, List.filter_cons, List.contains, hid]

theorem sanitizeIds_eq_firstDedup (ids : List Int) (vals : List JVal) :
    sanitizeIds ids vals
      = firstDedup ((vals.filterMap pyInt).filter (fun n => ids.contains n)) := by
  unfold sanitizeIds firstDedup
  simpa using sanStep_foldl ids vals []

theorem mem_firstDedupAux (seen l : List Int) (x : Int) (h : x ∈ firstDedupAux seen l) :
    x ∈ l ∧ x ∉ seen := by
  induction l generalizing seen with
  | nil => cases h
  | cons y ys ih =>
    unfold firstDedupAux at h
    by_cases hc : seen.contains y = true
    · rw [if_pos hc] at h
      obtain ⟨h1, h2⟩ := ih seen h
      exact ⟨List.mem_cons_of_mem _ h1, h2⟩
    · rw [if_neg hc] at h
      rcases List.mem_cons.mp h with rfl | h2
      · exact ⟨List.mem_cons_self _ _, by simpa [List.contains] using hc⟩
      · obtain ⟨h1, h3⟩ := ih (seen ++ [y]) h2
        refine ⟨List.mem_cons_of_mem _ h1, fun hx => h3 ?_⟩
        exact List.mem_append_left _ hx

theorem nodup_firstDedupAux (seen l : List Int) : (firstDedupAux seen l).Nodup := by
  induction l generalizing seen with
  | nil => exact List.nodup_nil
  | cons y ys ih =>
    unfold firstDedupAux
    by_cases hc : seen.contains y = true
    · rw [if_pos hc]; exact ih seen
    · rw [if_neg hc]
      refine List.nodup_cons.mpr ⟨fun hmem => ?_, ih _⟩
      have h3 := (mem_firstDedupAux _ _ _ hmem).2
      exact h3 (List.mem_append_right _ (List.mem_singleton_self y))

theorem filterMap_entries_ids (SL scored : List Product) (reasons : List (String × JVal))
    (l : List Int)
    (hall : ∀ rid ∈ l, (dictLookup SL rid).isSome) :
    ((l.filterMap (fun rid =>
      match dictLookup SL rid with
      | some p => some { product := to_public_product p, reason := reasonFor reasons rid }
      | none =>
        match scored.find? (fun s => s.id == rid) with
        | some p => some { product := to_public_product p, reason := reasonFor reasons rid }
        | none => none)).map (fun e : RecEntry => e.product.id)) = l := by
  induction l with
  | nil => rfl
  | cons rid rest ih =>
    have h1 := hall rid (List.mem_cons_self rid rest)
    cases hdl : dictLookup SL rid with
    | none => rw [hdl] at h1; cases h1
    | some p =>
      have hpid : p.id = rid := (dictLookup_eq_some SL rid p hdl).2
      simp only [List.filterMap_cons, hdl, List.map_cons]
      rw [ih (fun r hr => hall r (List.mem_cons_of_mem _ hr))]
      simp [to_public_product, hpid]

/-! ### Claim theorems -/

/-- C1 (code bug): the pipeline is not exception-free.  An LLM response whose
text is syntactically valid JSON but not a JSON object (here the array
`[2]`) survives `json.loads`, then `parsed.get("recommendation_ids", [])`
raises an uncaught `AttributeError` that escapes
`OrchestratorAgent.recommend` — and the `/recommendations` endpoint
installs no handler around it — instead of being recovered by the
deterministic fallback. -/
theorem rerank_nondict_json_raises :
    OrchestratorAgent.recommend phoneCatalog phonePrimary 5
      (some (some (JVal.jarr [JVal.jint 2]))) = Except.error "AttributeError" := rfl

/-- C2: every product id in the final recommendation output originates in
the Scorer's top-30 shortlist for the request: the re-ranker sanitization,
the validator and every orchestrator fallback select only ids of shortlist
members, never ids from outside that set. -/
theorem final_output_ids_from_shortlist (catalog : List Product) (primary : Product)
    (limit : Int) (llm : Option (Option JVal)) (out : List RecEntry)
    (hok : OrchestratorAgent.recommend catalog primary limit llm = Except.ok out)
    (e : RecEntry) (he : e ∈ out) :
    e.product.id ∈ (shortlistOf catalog primary).map (fun p => p.id) := by
  rcases recommend_ok_elim catalog primary limit llm out hok with ⟨-, rfl⟩ | rfl
  · cases he
  · obtain ⟨rid, hmem, hid⟩ := mem_entriesOf catalog primary limit llm e he
    rw [hid]
    exact validIds_subset_shortlist catalog primary limit llm rid (mem_pyTake _ _ _ hmem)

/-- Witness for C2 at a concrete request (three phone candidates, LLM path
disabled). -/
theorem final_output_ids_from_shortlist_witness :
    phoneEntry2.product.id ∈ (shortlistOf phoneCatalog phonePrimary).map (fun p => p.id) :=
  final_output_ids_from_shortlist phoneCatalog phonePrimary 5 none
    [phoneEntry2, phoneEntry3, phoneEntry4] rfl phoneEntry2 (List.mem_cons_self _ _)

/-- C3 (amended): for every request with a nonnegative requested limit, the
final recommendation list never has more than `limit` entries.  (The
unamended claim fails for a negative limit, which Python slicing turns
into "drop from the end".) -/
theorem final_length_le_limit (catalog : List Product) (primary : Product)
    (limit : Int) (llm : Option (Option JVal)) (out : List RecEntry)
    (h0 : 0 ≤ limit)
    (hok : OrchestratorAgent.recommend catalog primary limit llm = Except.ok out) :
    (out.length : Int) ≤ limit := by
  rcases recommend_ok_elim catalog primary limit llm out hok with ⟨-, rfl⟩ | rfl
  · simpa using h0
  · have h1 : (entriesOf catalog primary limit llm).length
        ≤ (pyTake limit (validIdsOf catalog primary limit llm)).length := by
      unfold entriesOf
      exact List.length_filterMap_le _ _
    have h2 := length_pyTake_le limit (validIdsOf catalog primary limit llm) h0
    omega

/-- Witness for C3's amended theorem at a concrete request. -/
theorem final_length_le_limit_witness :
    (0 : Int) ≤ 5
    ∧ ((([phoneEntry2, phoneEntry3, phoneEntry4] : List RecEntry).length : Int) ≤ 5) :=
  ⟨by decide,
   final_length_le_limit phoneCatalog phonePrimary 5 none
     [phoneEntry2, phoneEntry3, phoneEntry4] (by decide) rfl⟩

/-- C3 counterexample: at requested limit -1 the same request yields one
entry, and 1 ≤ -1 is false — the final count exceeds the requested limit. -/
theorem negative_limit_exceeded :
    OrchestratorAgent.recommend phoneCatalog phonePrimary (-1) none = Except.ok [phoneEntry2]
    ∧ ¬((([phoneEntry2] : List RecEntry).length : Int) ≤ -1) :=
  ⟨rfl, by decide⟩

/-- C4: for every medical-equipment primary — whether or not it has a brand
or model — `ValidatorAgent.validate` excludes every id resolving to a
candidate whose category is outside the medical accessory categories; in
particular any such candidate lacking explicit compatibility attributes,
as the claim states.  No attribute hypotheses are needed: the
allowed-category gate for `medical_equipment` accepts only the medical
categories, so such a candidate is dropped whatever its attributes. -/
theorem medical_validator_excludes_nonmedical (primary c : Product)
    (rec_ids : List Int) (cands : List Product)
    (hmed : primary.category = "medical_equipment")
    (hfind : dictLookup cands c.id = some c)
    (hcat : c.category ∉ MEDICAL_VALIDATOR_CATEGORIES) :
    c.id ∉ ValidatorAgent.validate primary rec_ids cands := by
  intro hmem
  obtain ⟨-, c2, hdl, hkeep⟩ := mem_validate primary rec_ids cands c.id hmem
  rw [hfind] at hdl
  injection hdl with hc2
  subst hc2
  have hmap : COMPATIBILITY_MAP "medical_equipment"
      = some ["medical_equipment", "medical_supplies", "medical_accessory",
              "filters", "mask", "tubing", "mouthpiece"] := rfl
  have hcat2 : c.category ∉ ["medical_equipment", "medical_supplies", "medical_accessory",
      "filters", "mask", "tubing", "mouthpiece"] := by
    intro hx
    apply hcat
    simp only [MEDICAL_VALIDATOR_CATEGORIES]
    simp at hx ⊢
    tauto
  have hac : allowedCheck primary c = false := by
    unfold allowedCheck
    rw [hmed, hmap]
    simpa [List.contains] using hcat2
  rw [validKeep] at hkeep
  simp [hac] at hkeep

/-- Witness for C4: an attribute-less phone candidate against a brandless,
modelless medical primary. -/
theorem medical_validator_excludes_nonmedical_witness :
    medPhoneCand.id ∉ ValidatorAgent.validate medPrimaryBare [7] [medPhoneCand] :=
  medical_validator_excludes_nonmedical medPrimaryBare medPhoneCand [7] [medPhoneCand]
    rfl rfl (by decide)

/-- C5 (amended): whenever the validator accepts at least one of the chosen
ids, every id in the final recommendation list was accepted by
`ValidatorAgent.validate`, identically for the LLM path and the
deterministic fallback; when the validator accepts none, the orchestrator
instead substitutes unvalidated same-category (or raw top-limit) shortlist
ids. -/
theorem validator_gates_when_nonempty (catalog : List Product) (primary : Product)
    (limit : Int) (llm : Option (Option JVal)) (out : List RecEntry) (e : RecEntry)
    (hv : validatedOf catalog primary limit llm ≠ [])
    (hok : OrchestratorAgent.recommend catalog primary limit llm = Except.ok out)
    (he : e ∈ out) :
    e.product.id ∈ validatedOf catalog primary limit llm := by
  rcases recommend_ok_elim catalog primary limit llm out hok with ⟨-, rfl⟩ | rfl
  · cases he
  · obtain ⟨rid, hmem, hid⟩ := mem_entriesOf catalog primary limit llm e he
    rw [hid]
    have hvi : validIdsOf catalog primary limit llm
        = validatedOf catalog primary limit llm := by
      unfold validIdsOf
      rw [if_neg (by simpa [List.isEmpty_iff] using hv)]
    rw [hvi] at hmem
    exact mem_pyTake _ _ _ hmem

/-- Witness for C5's amended theorem at a concrete request. -/
theorem validator_gates_when_nonempty_witness :
    validatedOf phoneCatalog phonePrimary 5 none ≠ []
    ∧ phoneEntry2.product.id ∈ validatedOf phoneCatalog phonePrimary 5 none := by
  have hv : validatedOf phoneCatalog phonePrimary 5 none ≠ [] := by
    intro h
    rw [show validatedOf phoneCatalog phonePrimary 5 none = [2, 3, 4] from rfl] at h
    cases h
  exact ⟨hv,
    validator_gates_when_nonempty phoneCatalog phonePrimary 5 none
      [phoneEntry2, phoneEntry3, phoneEntry4] phoneEntry2 hv rfl (List.mem_cons_self _ _)⟩

/-- C5 counterexample: printer primary whose only shortlisted candidate is an
other-brand ink cartridge.  The validator rejects it, yet the
post-validation fallback places it in the final output — an id the
validator did not accept. -/
theorem validator_bypassed_on_total_filter :
    OrchestratorAgent.recommend printerCatalog printerPrimary 5 none
      = Except.ok [cartridgeEntry]
    ∧ ValidatorAgent.validate printerPrimary (recIdsOf printerCatalog printerPrimary 5 none)
        (shortlistOf printerCatalog printerPrimary) = []
    ∧ cartridgeEntry.product.id ∉ ValidatorAgent.validate printerPrimary
        (recIdsOf printerCatalog printerPrimary 5 none)
        (shortlistOf printerCatalog printerPrimary) := by
  refine ⟨rfl, rfl, ?_⟩
  intro hmem
  rw [show ValidatorAgent.validate printerPrimary (recIdsOf printerCatalog printerPrimary 5 none)
        (shortlistOf printerCatalog printerPrimary) = [] from rfl] at hmem
  cases hmem

/-- C6 (code bug): the "+2 if the candidate has an image URL" part of the
score is never applied.  The raw catalog record carries an image URL, but
the `Product` schema declares no `image_url` field, pydantic parsing drops
it, `model_dump()` of the parsed product has no such key, and the scorer
awards 20 rather than 22 to this phone-case candidate. -/
theorem image_url_bonus_never_applied :
    rawCase6.image_url = some "http://img.example/c.png"
    ∧ getAttr (Product.model_dump (Product.parse_obj rawCase6)) "image_url" = none
    ∧ scoreOf phonePrimary (Product.parse_obj rawCase6) = 20
    ∧ (20 : Int) ≠ 20 + 2 :=
  ⟨rfl, rfl, rfl, by decide⟩

/-- C7: for every re-ranker response that parses to a JSON object, the id
list is sanitized — each kept value is int-coerced and a member of the
shortlist id set, duplicates are dropped keeping first occurrences in
order (`firstDedup` is the spec-side description), the result is truncated
to `limit`, and an empty sanitized list yields the none sentinel with no
reasons. -/
theorem rerank_sanitization_spec (primary : Product) (candidates : List Product)
    (limit : Int) (fields : List (String × JVal)) (vals : List JVal)
    (hrec : (getAttr fields "recommendation_ids").getD (JVal.jarr []) = JVal.jarr vals) :
    (∀ n ∈ sanitizeIds (candidates.map (fun c => c.id)) vals,
        n ∈ candidates.map (fun c => c.id))
    ∧ (sanitizeIds (candidates.map (fun c => c.id)) vals).Nodup
    ∧ sanitizeIds (candidates.map (fun c => c.id)) vals
        = firstDedup ((vals.filterMap pyInt).filter
            (fun n => (candidates.map (fun c => c.id)).contains n))
    ∧ LLMReRankerAgent.rerank primary candidates limit (some (some (JVal.jobj fields)))
        = (if (sanitizeIds (candidates.map (fun c => c.id)) vals).isEmpty
           then RerankOutcome.ok none
           else RerankOutcome.ok (some
             (pyTake limit (sanitizeIds (candidates.map (fun c => c.id)) vals),
              rerankReasons fields))) := by
  refine ⟨?_, ?_, sanitizeIds_eq_firstDedup _ _, ?_⟩
  · intro n hn
    rw [sanitizeIds_eq_firstDedup] at hn
    have hmf := (mem_firstDedupAux _ _ _ hn).1
    have hf := List.mem_filter.mp hmf
    simpa [List.contains] using hf.2
  · rw [sanitizeIds_eq_firstDedup]
    exact nodup_firstDedupAux _ _
  · simp only [LLMReRankerAgent.rerank, hrec]

/-- Witness for C7: shortlist ids {2, 3}, response ids [3, 3, 99, 2]. -/
theorem rerank_sanitization_spec_witness :
    (∀ n ∈ sanitizeIds ([phoneP2, phoneP3].map (fun c => c.id))
        [JVal.jint 3, JVal.jint 3, JVal.jint 99, JVal.jint 2],
      n ∈ [phoneP2, phoneP3].map (fun c => c.id))
    ∧ (sanitizeIds ([phoneP2, phoneP3].map (fun c => c.id))
        [JVal.jint 3, JVal.jint 3, JVal.jint 99, JVal.jint 2]).Nodup
    ∧ sanitizeIds ([phoneP2, phoneP3].map (fun c => c.id))
        [JVal.jint 3, JVal.jint 3, JVal.jint 99, JVal.jint 2]
        = firstDedup (([JVal.jint 3, JVal.jint 3, JVal.jint 99, JVal.jint 2].filterMap pyInt).filter
            (fun n => (([phoneP2, phoneP3].map (fun c => c.id))).contains n))
    ∧ LLMReRankerAgent.rerank phonePrimary [phoneP2, phoneP3] 5 (some (some (JVal.jobj fields7)))
        = (if (sanitizeIds ([phoneP2, phoneP3].map (fun c => c.id))
              [JVal.jint 3, JVal.jint 3, JVal.jint 99, JVal.jint 2]).isEmpty
           then RerankOutcome.ok none
           else RerankOutcome.ok (some
             (pyTake 5 (sanitizeIds ([phoneP2, phoneP3].map (fun c => c.id))
               [JVal.jint 3, JVal.jint 3, JVal.jint 99, JVal.jint 2]),
              rerankReasons fields7))) :=
  rerank_sanitization_spec phonePrimary [phoneP2, phoneP3] 5 fields7
    [JVal.jint 3, JVal.jint 3, JVal.jint 99, JVal.jint 2] rfl

/-- C8 (amended): when the re-rank yields no usable result, the orchestrator
substitutes the first `limit` ids of the scored shortlist with empty
reasons; whenever the validator accepts at least one of them, the final
list is exactly those fallback ids filtered through the validator; when it
accepts none, the unvalidated same-category / raw fallback replaces them. -/
theorem rerank_failure_fallback_validated (catalog : List Product) (primary : Product)
    (limit : Int) (llm : Option (Option JVal)) (out : List RecEntry)
    (hempty : (rerankPairOf catalog primary limit llm).1 = [])
    (hv : validatedOf catalog primary limit llm ≠ [])
    (hok : OrchestratorAgent.recommend catalog primary limit llm = Except.ok out) :
    recIdsOf catalog primary limit llm
        = (pyTake limit (shortlistOf catalog primary)).map (fun c => c.id)
    ∧ reasonsOf catalog primary limit llm = []
    ∧ out.map (fun e => e.product.id) = pyTake limit (validatedOf catalog primary limit llm) := by
  have hrec : recIdsOf catalog primary limit llm
      = (pyTake limit (shortlistOf catalog primary)).map (fun c => c.id) := by
    unfold recIdsOf
    rw [hempty]
    rfl
  have hreas : reasonsOf catalog primary limit llm = [] := by
    unfold reasonsOf
    rw [hempty]
    rfl
  refine ⟨hrec, hreas, ?_⟩
  rcases recommend_ok_elim catalog primary limit llm out hok with ⟨hb, rfl⟩ | rfl
  · exact absurd (validated_nil_of_built_nil catalog primary limit llm hb) hv
  · have hvi : validIdsOf catalog primary limit llm
        = validatedOf catalog primary limit llm := by
      unfold validIdsOf
      rw [if_neg (by simpa [List.isEmpty_iff] using hv)]
    unfold entriesOf
    rw [hvi]
    apply filterMap_entries_ids
    intro rid hr
    obtain ⟨-, c, hdl, -⟩ := mem_validate _ _ _ _ (mem_pyTake _ _ _ hr)
    rw [hdl]
    rfl

/-- Witness for C8's amended theorem at a concrete request. -/
theorem rerank_failure_fallback_validated_witness :
    recIdsOf phoneCatalog phonePrimary 5 none
        = (pyTake 5 (shortlistOf phoneCatalog phonePrimary)).map (fun c => c.id)
    ∧ reasonsOf phoneCatalog phonePrimary 5 none = []
    ∧ ([phoneEntry2, phoneEntry3, phoneEntry4].map (fun e => e.product.id))
        = pyTake 5 (validatedOf phoneCatalog phonePrimary 5 none) :=
  rerank_failure_fallback_validated phoneCatalog phonePrimary 5 none
    [phoneEntry2, phoneEntry3, phoneEntry4] rfl
    (by
      intro h
      rw [show validatedOf phoneCatalog phonePrimary 5 none = [2, 3, 4] from rfl] at h
      cases h)
    rfl

/-- C8 counterexample: in the printer scenario the re-rank yields nothing and
every fallback id is rejected by the validator, yet the final list is the
unvalidated fallback (the rejected cartridge), not the validator-filtered
fallback (which is empty). -/
theorem rerank_failure_fallback_unvalidated :
    rerankPairOf printerCatalog printerPrimary 5 none = ([], [])
    ∧ OrchestratorAgent.recommend printerCatalog printerPrimary 5 none
        = Except.ok [cartridgeEntry]
    ∧ ValidatorAgent.validate printerPrimary
        ((pyTake 5 (shortlistOf printerCatalog printerPrimary)).map (fun c => c.id))
        (shortlistOf printerCatalog printerPrimary) = []
    ∧ [cartridgeEntry].map (fun e => e.product.id) ≠ [] := by
  refine ⟨rfl, rfl, rfl, ?_⟩
  intro h
  cases h

/-- C9 (code bug): for a medical primary the retriever keeps (never drops)
consumer-electronics candidates, but it does not push them behind the
other non-prioritized candidates: the phone (id 2) stays ahead of the
unrelated book (id 3) in plain catalog order, because the "push to back"
branch appends to the same `rest` list as the default branch. -/
theorem medical_retriever_keeps_catalog_order :
    (RetrieverAgent.retrieve [phoneP2, bookP3] medPrimary 1000).map (fun p => p.id) = [2, 3]
    ∧ ((2 : Int) ≠ 3) :=
  ⟨rfl, by decide⟩

/-- C10: with `USE_POSTGRES` falsy, `_load_data` falls off the end of its
body and returns `None`, so `get_all_products` returns the empty list no
matter what the products JSON file (or the Postgres table) holds. -/
theorem no_postgres_empty_catalog (pgRows jsonData : List RawProduct) :
    pyLoadData false pgRows jsonData = none
    ∧ get_all_products false pgRows jsonData = [] :=
  ⟨rfl, rfl⟩

end Reco
